import Mathlib

/-
  A shallow embedding of the xp-responder repository (src/lib/index.js):
  the XPResponder class, a server-side helper that derives an HTTP status
  code, reason phrase, serialized body and headers from an options object,
  and finalizes an underlying response sink.  The model follows
  src/lib/index.js line by line; external library functions (Node's
  http.STATUS_CODES table and response objects, Buffer byte length, and the
  expandjs helpers XP.isDefined / isVoid / isFalse / isInput / isString /
  toJSON / toString / byteLength) are modelled after their documented
  behavior.  JavaScript exceptions are modelled with Except.
-/

set_option autoImplicit false

/-- JavaScript values, as far as the responder inspects them.  An object
    is encoded first-order as a chain of key/value fields ending in objNil
    (so that recursion over values stays structural and kernel-evaluable);
    jsObj builds such a chain from a list of pairs. -/
inductive JSVal where
  | undefined
  | null
  | bool (b : Bool)
  | num (n : Int)
  | str (s : String)
  | objNil
  | objCons (key : String) (value : JSVal) (rest : JSVal)

/-- An object value from a list of key/value fields. -/
def jsObj : List (String × JSVal) → JSVal
  | [] => .objNil
  | (k, v) :: rest => .objCons k v (jsObj rest)

/-- expandjs XP.isDefined(value): everything except undefined is defined
    (in particular null is defined). -/
def isDefinedJS : JSVal → Bool
  | .undefined => false
  | _ => true

/-- expandjs XP.isVoid(value): undefined or null. -/
def isVoidJS : JSVal → Bool
  | .undefined => true
  | .null => true
  | _ => false

/-- expandjs XP.isFalse(value): the boolean false. -/
def isFalseJS : JSVal → Bool
  | .bool b => !b
  | _ => false

/-- expandjs XP.isInput(value): a boolean, a (finite) number or a string. -/
def isInputJS : JSVal → Bool
  | .bool _ => true
  | .num _ => true
  | .str _ => true
  | _ => false

/-- expandjs XP.isInput(value, true): an input value that is neither false
    nor the empty string. -/
def isInputValJS : JSVal → Bool
  | .bool b => b
  | .num _ => true
  | .str s => !(s == "")
  | _ => false

/-- Decimal digits of a natural number, most significant first
    (JavaScript Number.prototype.toString for non-negative integers).
    The fuel argument makes the recursion structural, so the kernel can
    evaluate it; fuel n always suffices since the recursion takes at most
    one step per decimal digit. -/
def natDigitsAux : Nat → Nat → List Char
  | 0, n => [Nat.digitChar n]
  | fuel + 1, n =>
    if n < 10 then [Nat.digitChar n]
    else natDigitsAux fuel (n / 10) ++ [Nat.digitChar (n % 10)]

/-- Decimal digits of a natural number, most significant first. -/
def natDigits (n : Nat) : List Char := natDigitsAux n n

/-- Decimal string of a natural number. -/
def natToString (n : Nat) : String := String.mk (natDigits n)

/-- Decimal string of an integer (JavaScript number-to-string for ints). -/
def intToString : Int → String
  | .ofNat m => natToString m
  | .negSucc m => "-" ++ natToString (m + 1)

/-- JSON string escaping for one character (the characters that occur in
    the repository's data: quote, backslash and common control chars). -/
def jsonEscapeChar (c : Char) : String :=
  if c = '"' then "\\\""
  else if c = '\\' then "\\\\"
  else if c = '\n' then "\\n"
  else if c = '\t' then "\\t"
  else if c = '\r' then "\\r"
  else String.singleton c

/-- A JSON string literal: JSON.stringify of a string. -/
def jsonQuote (s : String) : String :=
  "\"" ++ String.join (s.data.map jsonEscapeChar) ++ "\""

/-- JSON.stringify, rendering a value both as a standalone value (first
    component; none for undefined, whose object fields are dropped) and as
    the list of rendered `"key":value` fields it contributes when it is an
    objCons chain (second component). -/
def jsonRender : JSVal → Option String × List String
  | .undefined => (none, [])
  | .null => (some "null", [])
  | .bool b => (some (if b then "true" else "false"), [])
  | .num n => (some (intToString n), [])
  | .str s => (some (jsonQuote s), [])
  | .objNil => (some "\x7b\x7d", [])
  | .objCons k v rest =>
    let fields := (match (jsonRender v).1 with
      | none => []
      | some sv => [jsonQuote k ++ ":" ++ sv]) ++ (jsonRender rest).2
    (some ("\x7b" ++ String.intercalate "," fields ++ "\x7d"), fields)

/-- JSON.stringify of a value. -/
def jsonStringify (v : JSVal) : Option String := (jsonRender v).1

/-- expandjs XP.toJSON(value): JSON.stringify with a non-string result
    (undefined input) coerced to the empty string. -/
def toJSON (v : JSVal) : String := (jsonStringify v).getD ""

/-- expandjs XP.toString(value) (lodash toString): nil values become the
    empty string, objects become "[object Object]". -/
def jsToString : JSVal → String
  | .undefined => ""
  | .null => ""
  | .bool b => if b then "true" else "false"
  | .num n => intToString n
  | .str s => s
  | .objNil => "[object Object]"
  | .objCons _ _ _ => "[object Object]"

/-- Node's http.STATUS_CODES table (Node 8 era, matching the repository's
    2017 vintage): the standard reason phrase for each known status code. -/
def STATUS_CODES (code : Int) : Option String :=
  match code with
  | 100 => some "Continue"
  | 101 => some "Switching Protocols"
  | 102 => some "Processing"
  | 200 => some "OK"
  | 201 => some "Created"
  | 202 => some "Accepted"
  | 203 => some "Non-Authoritative Information"
  | 204 => some "No Content"
  | 205 => some "Reset Content"
  | 206 => some "Partial Content"
  | 207 => some "Multi-Status"
  | 208 => some "Already Reported"
  | 226 => some "IM Used"
  | 300 => some "Multiple Choices"
  | 301 => some "Moved Permanently"
  | 302 => some "Found"
  | 303 => some "See Other"
  | 304 => some "Not Modified"
  | 305 => some "Use Proxy"
  | 307 => some "Temporary Redirect"
  | 308 => some "Permanent Redirect"
  | 400 => some "Bad Request"
  | 401 => some "Unauthorized"
  | 402 => some "Payment Required"
  | 403 => some "Forbidden"
  | 404 => some "Not Found"
  | 405 => some "Method Not Allowed"
  | 406 => some "Not Acceptable"
  | 407 => some "Proxy Authentication Required"
  | 408 => some "Request Timeout"
  | 409 => some "Conflict"
  | 410 => some "Gone"
  | 411 => some "Length Required"
  | 412 => some "Precondition Failed"
  | 413 => some "Payload Too Large"
  | 414 => some "URI Too Long"
  | 415 => some "Unsupported Media Type"
  | 416 => some "Range Not Satisfiable"
  | 417 => some "Expectation Failed"
  | 418 => some "I\x27m a teapot"
  | 421 => some "Misdirected Request"
  | 422 => some "Unprocessable Entity"
  | 423 => some "Locked"
  | 424 => some "Failed Dependency"
  | 425 => some "Unordered Collection"
  | 426 => some "Upgrade Required"
  | 428 => some "Precondition Required"
  | 429 => some "Too Many Requests"
  | 431 => some "Request Header Fields Too Large"
  | 451 => some "Unavailable For Legal Reasons"
  | 500 => some "Internal Server Error"
  | 501 => some "Not Implemented"
  | 502 => some "Bad Gateway"
  | 503 => some "Service Unavailable"
  | 504 => some "Gateway Timeout"
  | 505 => some "HTTP Version Not Supported"
  | 506 => some "Variant Also Negotiates"
  | 507 => some "Insufficient Storage"
  | 508 => some "Loop Detected"
  | 509 => some "Bandwidth Limit Exceeded"
  | 510 => some "Not Extended"
  | 511 => some "Network Authentication Required"
  | _ => none

/-- The JavaScript errors the responder can raise. -/
inductive JSErr where
  | typeError
  | argumentError (argIndex : Nat) (expected : String)
  | validationError (msg : String)
deriving DecidableEq

/-- The caller-supplied error descriptor ({code, message}). -/
structure ErrorDesc where
  code : Int
  message : String
deriving DecidableEq

/-- A Node http.ServerResponse, as far as the responder uses it: mutable
    statusCode (Node defaults it to 200) and statusMessage, a header map
    (Node stores header names case-insensitively), plus the terminal write:
    `pending` models the body bound onto response.end by the constructor,
    `ended`/`written` model the end call having happened and what it wrote. -/
structure Sink where
  statusCode : Int := 200
  statusMessage : Option String := none
  headers : List (String × String) := []
  pending : Option String := none
  ended : Bool := false
  written : Option String := none
deriving DecidableEq

/-- Node lowercases header names for storage/lookup. -/
def lcName (n : String) : String := n.toLower

/-- Insert-or-replace in an association list (Node's setHeader). -/
def setAssoc : List (String × String) → String → String → List (String × String)
  | [], k, v => [(k, v)]
  | (k0, v0) :: rest, k, v =>
    if k0 == k then (k, v) :: rest else (k0, v0) :: setAssoc rest k v

/-- response.setHeader(name, value). -/
def sinkSetHeader (s : Sink) (n v : String) : Sink :=
  { s with headers := setAssoc s.headers (lcName n) v }

/-- response.removeHeader(name). -/
def sinkRemoveHeader (s : Sink) (n : String) : Sink :=
  { s with headers := s.headers.filter (fun p => !(p.1 == lcName n)) }

/-- response.getHeader(name). -/
def sinkGetHeader (s : Sink) (n : String) : Option String :=
  (s.headers.find? (fun p => p.1 == lcName n)).map Prod.snd

/-- The recognized constructor options (src/lib/index.js lines 24-32).
    Absent entries are none/undefined; `options.error || null` and
    `options.response || null` make absent and null coincide. -/
structure Options where
  data : JSVal := .undefined
  error : Option ErrorDesc := none
  headers : List (String × JSVal) := []
  mode : Option String := none
  response : Option Sink := none

/-- The XPResponder instance state.  Every property is undefined before its
    first assignment: `none` (or JSVal.undefined for data) models undefined;
    `error`/`response` distinguish undefined (outer none) from null
    (some none) because XP.isDefined(null) is true.  statusCode_ and
    statusMessage_ are the shadow fields used when no sink is attached. -/
structure Responder where
  options : Option Options := none
  data : JSVal := .undefined
  error : Option (Option ErrorDesc) := none
  mode : Option String := none
  response : Option (Option Sink) := none
  body : Option String := none
  bytes : Option Nat := none
  statusCode_ : Option Int := none
  statusMessage_ : Option String := none

/-- The attached sink, if any (`this.response` truthy). -/
def sinkOf (r : Responder) : Option Sink :=
  match r.response with
  | some (some s) => some s
  | _ => none

/-- statusCode getter (line 220): the sink's statusCode when a sink is
    attached, else the shadow field. -/
def Responder.statusCodeGet (r : Responder) : Option Int :=
  match r.response with
  | some (some s) => some s.statusCode
  | _ => r.statusCode_

/-- statusMessage getter (line 232). -/
def Responder.statusMessageGet (r : Responder) : Option String :=
  match r.response with
  | some (some s) => s.statusMessage
  | _ => r.statusMessage_

/-- statusCode setter (line 221): writes through to the sink when attached. -/
def setStatusCodeProp (r : Responder) (v : Int) : Responder :=
  match r.response with
  | some (some s) => { r with response := some (some { s with statusCode := v }) }
  | _ => { r with statusCode_ := some v }

/-- statusMessage setter (line 233). -/
def setStatusMessageProp (r : Responder) (v : Option String) : Responder :=
  match r.response with
  | some (some s) => { r with response := some (some { s with statusMessage := v }) }
  | _ => { r with statusMessage_ := v }

/-- data property setter (line 157): write-once via XP.isDefined. -/
def setDataProp (r : Responder) (v : JSVal) : Responder :=
  if isDefinedJS r.data then r else { r with data := v }

/-- error property setter (line 167); its validator (null or object) is
    encoded in the argument type. -/
def setErrorProp (r : Responder) (v : Option ErrorDesc) : Responder :=
  match r.error with
  | some _ => r
  | none => { r with error := some v }

/-- response property setter (line 208); validator (null or object) encoded
    in the argument type. -/
def setResponseProp (r : Responder) (v : Option Sink) : Responder :=
  match r.response with
  | some _ => r
  | none => { r with response := some v }

/-- The frozen mode table (lines 190-199). -/
def modesTable : List (String × List (String × String)) :=
  [("html", [("Content-Type", "text/html; charset=utf-8")]),
   ("js", [("Content-Type", "application/javascript; charset=utf-8")]),
   ("json", [("Content-Type", "application/json; charset=utf-8")]),
   ("text", [("Content-Type", "text/plain; charset=utf-8")])]

/-- this.modes lookup. -/
def modes (m : String) : Option (List (String × String)) :=
  (modesTable.find? (fun p => p.1 == m)).map Prod.snd

/-- The string built by the mode validator's template:
    Object.keys(this.modes).join of the mode names, quoted. -/
def modeValidateMsg : String := "\"html\", \"js\", \"json\", \"text\""

/-- mode property validator (line 180): no error for a known mode, else the
    message enumerating the valid modes. -/
def modeValidate (v : String) : Option String :=
  if (modes v).isSome then none else some modeValidateMsg

/-- mode property setter with its validator (lines 178-181); the setter
    itself is `this.mode || val` (keep the current value when truthy). -/
def setModeProp (r : Responder) (v : String) : Except JSErr Responder :=
  match modeValidate v with
  | some msg => .error (.validationError msg)
  | none => .ok (match r.mode with
      | some m => if m == "" then { r with mode := some v } else r
      | none => { r with mode := some v })

/-- body property setter (lines 132-136): write-once, then the `then` hook
    downgrades a 200 status to 204 when the (stored) body is empty.  The
    validator (string) is encoded in the argument type. -/
def setBodyProp (r : Responder) (v : String) : Responder :=
  let r' := match r.body with
    | some _ => r
    | none => { r with body := some v }
  if r'.statusCodeGet == some 200 && (r'.body.getD "") == "" then
    setStatusCodeProp r' 204
  else r'

/-- bytes property setter (line 146): write-once; validator (non-negative
    integer) encoded in the argument type. -/
def setBytesProp (r : Responder) (v : Nat) : Responder :=
  match r.bytes with
  | some _ => r
  | none => { r with bytes := some v }

/-- The setHeader method (lines 86-100).  The argument assertions run
    before the sink check; with a sink, a value that is not a non-empty
    input (undefined, null, false, empty string) removes the header,
    anything else is set to its string form. -/
def setHeaderM (r : Responder) (name : String) (value : JSVal) : Except JSErr Responder :=
  if name == "" then .error (.argumentError 1 "string")
  else if !(isVoidJS value || isFalseJS value || isInputJS value) then
    .error (.argumentError 2 "string")
  else match r.response with
    | some (some s) =>
      if !(isInputValJS value) then
        .ok { r with response := some (some (sinkRemoveHeader s name)) }
      else
        .ok { r with response := some (some (sinkSetHeader s name (jsToString value))) }
    | _ => .ok r

/-- The getHeader method (lines 67-77). -/
def getHeaderM (r : Responder) (name : String) : Except JSErr (Option String) :=
  if name == "" then .error (.argumentError 1 "string")
  else match r.response with
    | some (some s) => .ok (sinkGetHeader s name)
    | _ => .ok none

/-- Line 38: `this.options.mode || 'json'`. -/
def modeVal (o : Options) : String :=
  match o.mode with
  | some m => if m == "" then "json" else m
  | none => "json"

/-- Line 40: `this.error ? (http.STATUS_CODES[this.error.code] &&
    this.error.code || 500) : (this.response && this.response.statusCode
    || 200)`.  A known phrase is a non-empty string, hence truthy; a falsy
    (zero) code falls back via the `|| 500` / `|| 200`. -/
def deriveStatusCode (error : Option ErrorDesc) (response : Option Sink) : Int :=
  match error with
  | some e =>
    match STATUS_CODES e.code with
    | some _ => if e.code == 0 then 500 else e.code
    | none => 500
  | none =>
    match response with
    | some s => if s.statusCode == 0 then 200 else s.statusCode
    | none => 200

/-- Line 41: `this.error ? (this.statusCode < 500 && this.error.message ||
    http.STATUS_CODES[this.statusCode]) : (this.response &&
    this.response.statusMessage || http.STATUS_CODES[this.statusCode])`. -/
def deriveStatusMessage (error : Option ErrorDesc) (response : Option Sink)
    (sc : Int) : Option String :=
  match error with
  | some e =>
    if sc < 500 && !(e.message == "") then some e.message else STATUS_CODES sc
  | none =>
    match response with
    | some s =>
      match s.statusMessage with
      | some m => if m == "" then STATUS_CODES sc else some m
      | none => STATUS_CODES sc
    | none => STATUS_CODES sc

/-- Option String as a JS value (undefined when absent). -/
def optStrJS : Option String → JSVal
  | some s => .str s
  | none => .undefined

/-- Line 42: `this.error ? {code: this.statusCode, message:
    this.statusMessage} : this.options.data`. -/
def deriveData (o : Options) : JSVal :=
  match o.error with
  | some _ =>
    jsObj [("code", .num (deriveStatusCode o.error o.response)),
           ("message", optStrJS (deriveStatusMessage o.error o.response
                                   (deriveStatusCode o.error o.response)))]
  | none => o.data

/-- Line 43: `XP[this.mode === 'json' ? 'toJSON' : 'toString'](this.data)`. -/
def deriveBody (o : Options) : String :=
  if modeVal o == "json" then toJSON (deriveData o) else jsToString (deriveData o)

/-- Lines 36-44 of the constructor: the derivation pass through the
    write-once property setters (on a fresh instance). -/
def deriveCore (o : Options) : Except JSErr Responder := do
  let r : Responder := { options := some o }
  let r := setErrorProp r o.error
  let r ← setModeProp r (modeVal o)
  let r := setResponseProp r o.response
  let sc := deriveStatusCode o.error o.response
  let r := setStatusCodeProp r sc
  let sm := deriveStatusMessage o.error o.response sc
  let r := setStatusMessageProp r sm
  let d : JSVal := match o.error with
    | some _ => jsObj [("code", .num sc), ("message", optStrJS sm)]
    | none => o.data
  let r := setDataProp r d
  let b := if modeVal o == "json" then toJSON r.data else jsToString r.data
  let r := setBodyProp r b
  let r := setBytesProp r b.utf8ByteSize
  pure r

/-- Lines 50-51: apply the selected mode's header template via setHeader. -/
def applyModeHeaders (r : Responder) (tmpl : List (String × String)) :
    Except JSErr Responder :=
  tmpl.foldlM (fun acc kv => setHeaderM acc kv.1 (JSVal.str kv.2)) r

/-- Line 51: apply the caller-supplied headers via setHeader. -/
def applyUserHeaders (r : Responder) (hs : List (String × JSVal)) :
    Except JSErr Responder :=
  hs.foldlM (fun acc kv => setHeaderM acc kv.1 kv.2) r

/-- Line 55: `this.response.end = this.response.end.bind(this.response,
    this.body, 'utf-8')` — the body is bound onto the sink's terminal write. -/
def bindEnd (r : Responder) : Responder :=
  match r.response with
  | some (some s) => { r with response := some (some { s with pending := some (r.body.getD "") }) }
  | _ => r

/-- The XPResponder constructor (lines 33-56).  A missing (undefined or
    null) options argument raises a TypeError at line 37, which reads
    `this.options.error`. -/
def init (options : Option Options) : Except JSErr Responder :=
  match options with
  | none => .error .typeError
  | some o => do
    let r ← deriveCore o
    match r.response with
    | some (some _) =>
      let tmpl := (modes (r.mode.getD "json")).getD []
      let r ← applyModeHeaders r tmpl
      let r ← applyUserHeaders r o.headers
      let r ← setHeaderM r "Content-Length" (.str (natToString (r.bytes.getD 0)))
      pure (bindEnd r)
    | _ => pure r

/-- The end method (lines 111-121): with no sink the callback fires and
    nothing changes; with a sink the bound terminal write runs, writing the
    pending body (utf-8) and closing the sink. -/
def endMethod (r : Responder) : Except JSErr Responder :=
  match r.response with
  | some (some s) =>
    .ok { r with response := some (some { s with ended := true, written := some (s.pending.getD "") }) }
  | _ => .ok r

/-
  Helper lemmas.
-/

/-- The explicit derived state produced by the constructor's lines 36-44,
    used to characterize deriveCore. -/
def coreResult (o : Options) : Responder :=
  let sc := deriveStatusCode o.error o.response
  let sm := deriveStatusMessage o.error o.response sc
  let b := deriveBody o
  let scF := if sc == 200 && b == "" then 204 else sc
  match o.response with
  | some s =>
    { options := some o, data := deriveData o, error := some o.error,
      mode := some (modeVal o),
      response := some (some { s with statusCode := scF, statusMessage := sm }),
      body := some b, bytes := some b.utf8ByteSize,
      statusCode_ := none, statusMessage_ := none }
  | none =>
    { options := some o, data := deriveData o, error := some o.error,
      mode := some (modeVal o), response := some none,
      body := some b, bytes := some b.utf8ByteSize,
      statusCode_ := some scF, statusMessage_ := sm }

theorem optionIntBeq (a b : Int) : ((some a : Option Int) == some b) = (a == b) := rfl

theorem deriveCore_err (o : Options) (msg : String)
    (hm : modeValidate (modeVal o) = some msg) :
    deriveCore o = .error (.validationError msg) := by
  simp only [deriveCore, setErrorProp, setModeProp, hm]
  rfl

theorem deriveCore_ok (o : Options) (hm : modeValidate (modeVal o) = none) :
    deriveCore o = .ok (coreResult o) := by
  cases ho : o.response <;> cases he : o.error <;>
    simp [deriveCore, coreResult, setErrorProp, setModeProp, hm, setResponseProp,
      setStatusCodeProp, setStatusMessageProp, setDataProp, setBodyProp, setBytesProp,
      Responder.statusCodeGet, deriveData, deriveBody, isDefinedJS, ho, he,
      optionIntBeq, Bind.bind, Except.bind, pure, Except.pure] <;>
    split_ifs <;> simp_all

/-- The derived state that the header-application stage (lines 50-55) never
    touches: everything except the sink's header map and pending body. -/
structure SameCore (r r' : Responder) : Prop where
  dataEq : r'.data = r.data
  errorEq : r'.error = r.error
  modeEq : r'.mode = r.mode
  bodyEq : r'.body = r.body
  bytesEq : r'.bytes = r.bytes
  scGet : r'.statusCodeGet = r.statusCodeGet
  smGet : r'.statusMessageGet = r.statusMessageGet
  sinkSome : (sinkOf r').isSome = (sinkOf r).isSome

theorem SameCore.refl (r : Responder) : SameCore r r :=
  ⟨rfl, rfl, rfl, rfl, rfl, rfl, rfl, rfl⟩

theorem SameCore.trans {a b c : Responder} (h1 : SameCore a b) (h2 : SameCore b c) :
    SameCore a c :=
  ⟨h2.dataEq.trans h1.dataEq, h2.errorEq.trans h1.errorEq, h2.modeEq.trans h1.modeEq,
   h2.bodyEq.trans h1.bodyEq, h2.bytesEq.trans h1.bytesEq, h2.scGet.trans h1.scGet,
   h2.smGet.trans h1.smGet, h2.sinkSome.trans h1.sinkSome⟩

theorem setHeaderM_sameCore {r r' : Responder} {n : String} {v : JSVal}
    (h : setHeaderM r n v = .ok r') : SameCore r r' := by
  unfold setHeaderM at h
  split at h
  · exact absurd h (by simp)
  · split at h
    · exact absurd h (by simp)
    · split at h
      next s heq =>
        split at h <;>
        · injection h with h
          subst h
          exact ⟨by simp, by simp, by simp,
            by simp, by simp,
            by simp [Responder.statusCodeGet, heq, sinkRemoveHeader, sinkSetHeader],
            by simp [Responder.statusMessageGet, heq, sinkRemoveHeader, sinkSetHeader],
            by simp [sinkOf, heq]⟩
      next hne =>
        injection h with h
        subst h
        exact SameCore.refl r

theorem applyUserHeaders_sameCore :
    ∀ (hs : List (String × JSVal)) {r r' : Responder},
      applyUserHeaders r hs = .ok r' → SameCore r r'
  | [], r, r', h => by
    simp [applyUserHeaders, List.foldlM, pure, Except.pure] at h
    subst h
    exact SameCore.refl r
  | (k, v) :: tl, r, r', h => by
    simp only [applyUserHeaders, List.foldlM] at h
    cases h1 : setHeaderM r k v with
    | error e => simp [h1, Bind.bind, Except.bind] at h
    | ok r1 =>
      rw [h1] at h
      simp only [Bind.bind, Except.bind] at h
      exact (setHeaderM_sameCore h1).trans (applyUserHeaders_sameCore tl h)

theorem applyModeHeaders_sameCore :
    ∀ (tmpl : List (String × String)) {r r' : Responder},
      applyModeHeaders r tmpl = .ok r' → SameCore r r'
  | [], r, r', h => by
    simp [applyModeHeaders, List.foldlM, pure, Except.pure] at h
    subst h
    exact SameCore.refl r
  | (k, v) :: tl, r, r', h => by
    simp only [applyModeHeaders, List.foldlM] at h
    cases h1 : setHeaderM r k (JSVal.str v) with
    | error e => simp [h1, Bind.bind, Except.bind] at h
    | ok r1 =>
      rw [h1] at h
      simp only [Bind.bind, Except.bind] at h
      exact (setHeaderM_sameCore h1).trans (applyModeHeaders_sameCore tl h)

theorem bindEnd_sameCore (r : Responder) : SameCore r (bindEnd r) := by
  unfold bindEnd
  split
  next s heq =>
    exact ⟨by simp, by simp, by simp, by simp, by simp,
      by simp [Responder.statusCodeGet, heq],
      by simp [Responder.statusMessageGet, heq],
      by simp [sinkOf, heq]⟩
  next heq => exact SameCore.refl r

theorem natDigitsAux_ne_nil (fuel n : Nat) : natDigitsAux fuel n ≠ [] := by
  cases fuel with
  | zero => simp [natDigitsAux]
  | succ f => unfold natDigitsAux; split <;> simp

theorem natDigits_ne_nil (n : Nat) : natDigits n ≠ [] := natDigitsAux_ne_nil n n

theorem natToString_ne_empty (n : Nat) : natToString n ≠ "" := by
  intro h
  have h2 : (natToString n).data = [] := by rw [h]
  exact natDigits_ne_nil n h2

theorem toJSON_objCons_ne_empty (k : String) (v rest : JSVal) :
    toJSON (.objCons k v rest) ≠ "" := by
  intro h
  rw [toJSON, jsonStringify, jsonRender] at h
  simp only [Option.getD_some] at h
  have h2 := congrArg String.length h
  simp only [String.length_append] at h2
  have e2 : ("\x7d" : String).length = 1 := rfl
  have e3 : ("" : String).length = 0 := rfl
  omega

theorem toJSON_jsObj_ne_empty (fs : List (String × JSVal)) : toJSON (jsObj fs) ≠ "" := by
  cases fs with
  | nil => intro h; exact absurd h (by decide)
  | cons hd tl =>
    obtain ⟨k, v⟩ := hd
    exact toJSON_objCons_ne_empty k v (jsObj tl)

theorem deriveBody_ne_empty_of_error (o : Options) (e : ErrorDesc) (he : o.error = some e) :
    deriveBody o ≠ "" := by
  unfold deriveBody deriveData
  rw [he]
  split
  · exact toJSON_jsObj_ne_empty _
  · simp [jsObj, jsToString]

theorem find_setAssoc (l : List (String × String)) (k v : String) :
    (setAssoc l k v).find? (fun p => p.1 == k) = some (k, v) := by
  induction l with
  | nil => simp [setAssoc, List.find?]
  | cons hd tl ih =>
    obtain ⟨k0, v0⟩ := hd
    by_cases hk : k0 == k
    · simp [setAssoc, hk, List.find?]
    · simp only [setAssoc, hk]
      simp only [Bool.false_eq_true, if_false]
      simp [List.find?, hk, ih]

theorem getHeader_setHeader (s : Sink) (n v : String) :
    sinkGetHeader (sinkSetHeader s n v) n = some v := by
  simp [sinkGetHeader, sinkSetHeader, find_setAssoc]

theorem coreResult_statusCodeGet (o : Options) :
    (coreResult o).statusCodeGet =
      some (if deriveStatusCode o.error o.response == 200 && deriveBody o == ""
            then 204 else deriveStatusCode o.error o.response) := by
  cases ho : o.response <;> simp [coreResult, Responder.statusCodeGet, ho]

theorem coreResult_statusMessageGet (o : Options) :
    (coreResult o).statusMessageGet =
      deriveStatusMessage o.error o.response (deriveStatusCode o.error o.response) := by
  cases ho : o.response <;> simp [coreResult, Responder.statusMessageGet, ho]

theorem coreResult_body (o : Options) : (coreResult o).body = some (deriveBody o) := by
  cases ho : o.response <;> simp [coreResult, ho]

theorem coreResult_bytes (o : Options) :
    (coreResult o).bytes = some (deriveBody o).utf8ByteSize := by
  cases ho : o.response <;> simp [coreResult, ho]

theorem coreResult_mode (o : Options) : (coreResult o).mode = some (modeVal o) := by
  cases ho : o.response <;> simp [coreResult, ho]

theorem coreResult_response_none (o : Options) (ho : o.response = none) :
    (coreResult o).response = some none := by
  simp [coreResult, ho]

theorem coreResult_response_some (o : Options) (s : Sink) (ho : o.response = some s) :
    (coreResult o).response = some (some
      { s with
          statusCode := (if deriveStatusCode o.error o.response == 200 && deriveBody o == ""
                         then 204 else deriveStatusCode o.error o.response),
          statusMessage := deriveStatusMessage o.error o.response
                             (deriveStatusCode o.error o.response) }) := by
  simp [coreResult, ho]

theorem response_of_sinkOf {r : Responder} {s : Sink} (h : sinkOf r = some s) :
    r.response = some (some s) := by
  rcases hr : r.response with _ | (_ | s')
  · simp [sinkOf, hr] at h
  · simp [sinkOf, hr] at h
  · simp [sinkOf, hr] at h
    rw [h]

theorem init_err_of_bad_mode {o : Options} {msg : String}
    (hm : modeValidate (modeVal o) = some msg) :
    init (some o) = .error (.validationError msg) := by
  simp only [init, deriveCore_err o msg hm, Bind.bind, Except.bind]

theorem init_ok_mode_valid {o : Options} {r : Responder}
    (h : init (some o) = .ok r) : modeValidate (modeVal o) = none := by
  cases hm : modeValidate (modeVal o) with
  | none => rfl
  | some msg => rw [init_err_of_bad_mode hm] at h; exact absurd h (by simp)

theorem init_ok_no_sink {o : Options} {r : Responder} (ho : o.response = none)
    (h : init (some o) = .ok r) : r = coreResult o := by
  have hm := init_ok_mode_valid h
  have hd := deriveCore_ok o hm
  simp only [init, hd, Bind.bind, Except.bind, coreResult_response_none o ho,
    pure, Except.pure] at h
  injection h with h
  exact h.symm

theorem init_ok_sink {o : Options} {s0 : Sink} {r : Responder}
    (ho : o.response = some s0) (h : init (some o) = .ok r) :
    SameCore (coreResult o) r ∧
    ∃ s, r.response = some (some s) ∧
      s.pending = some (deriveBody o) ∧
      sinkGetHeader s "Content-Length" =
        some (natToString (deriveBody o).utf8ByteSize) := by
  have hm := init_ok_mode_valid h
  have hd := deriveCore_ok o hm
  simp only [init, hd, Bind.bind, Except.bind, coreResult_response_some o s0 ho] at h
  cases h1 : applyModeHeaders (coreResult o) ((modes ((coreResult o).mode.getD "json")).getD []) with
  | error e => rw [h1] at h; exact absurd h (by simp)
  | ok r1 =>
    rw [h1] at h
    dsimp only at h
    cases h2 : applyUserHeaders r1 o.headers with
    | error e => rw [h2] at h; exact absurd h (by simp)
    | ok r2 =>
      rw [h2] at h
      dsimp only at h
      have sc12 : SameCore (coreResult o) r2 :=
        (applyModeHeaders_sameCore _ h1).trans (applyUserHeaders_sameCore _ h2)
      have hs : (sinkOf r2).isSome = true := by
        rw [sc12.sinkSome]
        simp [sinkOf, coreResult_response_some o s0 ho]
      obtain ⟨s2, hs2⟩ := Option.isSome_iff_exists.mp hs
      · have r2resp := response_of_sinkOf hs2
        have hbytes : r2.bytes = some (deriveBody o).utf8ByteSize := by
          rw [sc12.bytesEq, coreResult_bytes]
        have hbody2 : r2.body = some (deriveBody o) := by
          rw [sc12.bodyEq, coreResult_body]
        have hclv : (natToString (r2.bytes.getD 0) == "") = false := by
          simp [natToString_ne_empty]
        cases h3 : setHeaderM r2 "Content-Length"
            (.str (natToString (r2.bytes.getD 0))) with
        | error e => rw [h3] at h; exact absurd h (by simp)
        | ok r3 =>
          rw [h3] at h
          dsimp only at h
          simp only [pure, Except.pure] at h
          injection h with h
          have hr3 : r3 = { r2 with response := some (some (sinkSetHeader s2
              "Content-Length" (natToString (r2.bytes.getD 0)))) } := by
            simp [setHeaderM, r2resp, isVoidJS, isFalseJS, isInputJS,
              isInputValJS, jsToString, hclv] at h3
            exact h3.symm
          have r3resp : r3.response = some (some (sinkSetHeader s2
              "Content-Length" (natToString (r2.bytes.getD 0)))) := by
            rw [hr3]
          have hbody3 : r3.body = some (deriveBody o) := by
            rw [(setHeaderM_sameCore h3).bodyEq]
            exact hbody2
          have hbind : r = { r3 with response := some (some
              { sinkSetHeader s2 "Content-Length" (natToString (r2.bytes.getD 0)) with
                  pending := some (deriveBody o) }) } := by
            rw [← h]
            simp [bindEnd, r3resp, hbody3]
          constructor
          · have sc3 : SameCore (coreResult o) r3 :=
              sc12.trans (setHeaderM_sameCore h3)
            have sc4 : SameCore r3 r := by
              rw [← h]
              exact bindEnd_sameCore r3
            exact sc3.trans sc4
          · refine ⟨{ sinkSetHeader s2 "Content-Length" (natToString (r2.bytes.getD 0)) with
                pending := some (deriveBody o) }, ?_, ?_, ?_⟩
            · rw [hbind]
            · simp
            · have : sinkGetHeader
                  { sinkSetHeader s2 "Content-Length" (natToString (r2.bytes.getD 0)) with
                      pending := some (deriveBody o) } "Content-Length" =
                  sinkGetHeader (sinkSetHeader s2 "Content-Length"
                    (natToString (r2.bytes.getD 0))) "Content-Length" := by
                simp [sinkGetHeader, sinkSetHeader]
              rw [this, getHeader_setHeader, hbytes]
              simp

theorem init_ok_sameCore {o : Options} {r : Responder}
    (h : init (some o) = .ok r) : SameCore (coreResult o) r := by
  cases ho : o.response with
  | none => rw [init_ok_no_sink ho h]; exact SameCore.refl _
  | some s0 => exact (init_ok_sink ho h).1

theorem STATUS_CODES_zero : STATUS_CODES 0 = none := rfl

theorem deriveStatusCode_error (e : ErrorDesc) (resp : Option Sink) :
    deriveStatusCode (some e) resp =
      if (STATUS_CODES e.code).isSome then e.code else 500 := by
  unfold deriveStatusCode
  cases hc : STATUS_CODES e.code with
  | none => simp [hc]
  | some p =>
    have h0 : (e.code == 0) = false := by
      by_cases hz : e.code = 0
      · rw [hz, STATUS_CODES_zero] at hc; exact absurd hc (by simp)
      · simp [hz]
    simp [hc, h0]

theorem STATUS_CODES_of_derived (e : ErrorDesc) :
    (STATUS_CODES (if (STATUS_CODES e.code).isSome then e.code else 500)).isSome = true := by
  by_cases hc : (STATUS_CODES e.code).isSome = true
  · simp [hc]
  · simp only [Bool.not_eq_true] at hc
    simp only [hc, Bool.false_eq_true, if_false]
    rfl

theorem coreResult_statusCodeGet_error (o : Options) (e : ErrorDesc)
    (he : o.error = some e) :
    (coreResult o).statusCodeGet = some (deriveStatusCode o.error o.response) := by
  rw [coreResult_statusCodeGet]
  have hb : (deriveBody o == "") = false := by
    simp [deriveBody_ne_empty_of_error o e he]
  simp [hb]

/-
  Claim theorems.
-/

/-- C10: constructing with no options argument (undefined or null) throws a
    TypeError rather than producing a usable dry builder: line 37
    unconditionally dereferences this.options, so an options object is
    required even though every individual option is optional. -/
theorem c10_options_required : init none = .error .typeError := rfl

def optsC6 : Options := { error := some ⟨404, "Not Found"⟩, mode := some "json" }

/-- C6: for error {code: 404, message: "Not Found"} with mode json, the
    derived data is the normalized error object {code: statusCode,
    message: statusMessage}, statusCode is 404, statusMessage is
    "Not Found", and the serialized body is exactly
    \x7b"code":404,"message":"Not Found"\x7d. -/
theorem c6_not_found_json :
    (init (some optsC6)).map (fun r =>
        (r.data, r.statusCodeGet, r.statusMessageGet, r.body)) =
      .ok (jsObj [("code", .num 404), ("message", .str "Not Found")],
           some 404, some "Not Found",
           some "\x7b\"code\":404,\"message\":\"Not Found\"\x7d") := rfl

/-- C1: with a non-null error descriptor, the derived statusCode is
    error.code when that code has a standard reason phrase and 500
    otherwise, so the derived statusCode always has a standard reason
    phrase; in particular error code 999 yields statusCode 500 with the
    standard 500 phrase, the caller's message being discarded. -/
theorem c1_error_status_code {o : Options} {e : ErrorDesc} {r : Responder}
    (he : o.error = some e) (h : init (some o) = .ok r) :
    r.statusCodeGet = some (if (STATUS_CODES e.code).isSome then e.code else 500) ∧
    (STATUS_CODES (if (STATUS_CODES e.code).isSome then e.code else 500)).isSome = true ∧
    (e.code = 999 → r.statusCodeGet = some 500 ∧
      r.statusMessageGet = some "Internal Server Error") := by
  have hsame := init_ok_sameCore h
  have hsc : r.statusCodeGet = some (deriveStatusCode o.error o.response) := by
    rw [hsame.scGet, coreResult_statusCodeGet_error o e he]
  have hsm : r.statusMessageGet =
      deriveStatusMessage o.error o.response (deriveStatusCode o.error o.response) := by
    rw [hsame.smGet, coreResult_statusMessageGet]
  refine ⟨?_, STATUS_CODES_of_derived e, ?_⟩
  · rw [hsc, he, deriveStatusCode_error]
  · intro h999
    have hcode : deriveStatusCode o.error o.response = 500 := by
      rw [he, deriveStatusCode_error, h999]
      rfl
    refine ⟨by rw [hsc, hcode], ?_⟩
    rw [hsm, hcode, he]
    simp [deriveStatusMessage]
    rfl

def optsC1w : Options := { error := some ⟨999, "whatever"⟩ }

def resC1w : Responder := (init (some optsC1w)).toOption.getD {}

/-- Witness for C1 at error = {code: 999, message: "whatever"}: statusCode
    500 and the standard 500 reason phrase, the caller message discarded. -/
theorem c1_error_status_code_witness :
    resC1w.statusCodeGet = some 500 ∧
    resC1w.statusMessageGet = some "Internal Server Error" :=
  (c1_error_status_code (o := optsC1w) (e := ⟨999, "whatever"⟩)
    (r := resC1w) rfl rfl).2.2 rfl

def optsC2cex : Options := { error := some ⟨301, "Session Expired"⟩ }

/-- C2 counterexample: for error {code: 301, message: "Session Expired"}
    the derived statusCode is 301, which is outside [400,499], yet the
    derived statusMessage is the caller-supplied message, not the standard
    reason phrase for 301 — line 41 tests statusCode < 500, not membership
    in [400,499]. -/
theorem c2_counterexample :
    (init (some optsC2cex)).map Responder.statusCodeGet = .ok (some 301) ∧
    (init (some optsC2cex)).map Responder.statusMessageGet =
      .ok (some "Session Expired") ∧
    ¬(400 ≤ (301 : Int) ∧ (301 : Int) ≤ 499) ∧
    STATUS_CODES 301 = some "Moved Permanently" ∧
    some "Session Expired" ≠ STATUS_CODES 301 := by
  refine ⟨rfl, rfl, by decide, rfl, by decide⟩

/-- C2 (amended): with a non-null error descriptor, the derived
    statusMessage equals error.message exactly when the derived statusCode
    is below 500 AND error.message is non-empty; otherwise it is the
    standard reason phrase for the derived statusCode.  (The spec's
    [400,499] range is what src/unnamed/part_000 implements; the shipped
    src/lib/index.js tests statusCode < 500.) -/
theorem c2_amended_status_message {o : Options} {e : ErrorDesc} {r : Responder}
    (he : o.error = some e) (h : init (some o) = .ok r) :
    r.statusCodeGet = some (deriveStatusCode (some e) o.response) ∧
    r.statusMessageGet =
      (if deriveStatusCode (some e) o.response < 500 ∧ e.message ≠ ""
       then some e.message
       else STATUS_CODES (deriveStatusCode (some e) o.response)) := by
  have hsame := init_ok_sameCore h
  constructor
  · rw [hsame.scGet, coreResult_statusCodeGet_error o e he, he]
  · rw [hsame.smGet, coreResult_statusMessageGet, he]
    simp only [deriveStatusMessage]
    by_cases h5 : deriveStatusCode (some e) o.response < 500
    · by_cases hm : e.message = ""
      · simp [h5, hm]
      · simp [h5, hm]
    · simp [h5]

def optsC2w : Options := { error := some ⟨422, "Bad Entity Body"⟩ }

def resC2w : Responder := (init (some optsC2w)).toOption.getD {}

/-- Witness for the amended C2 at error = {code: 422, message:
    "Bad Entity Body"}: a client-error code keeps the caller message. -/
theorem c2_amended_status_message_witness :
    resC2w.statusCodeGet = some (deriveStatusCode (some ⟨422, "Bad Entity Body"⟩) none) ∧
    resC2w.statusMessageGet =
      (if deriveStatusCode (some ⟨422, "Bad Entity Body"⟩) none < 500 ∧
          ("Bad Entity Body" : String) ≠ ""
       then some "Bad Entity Body"
       else STATUS_CODES (deriveStatusCode (some ⟨422, "Bad Entity Body"⟩) none)) :=
  c2_amended_status_message (o := optsC2w) (e := ⟨422, "Bad Entity Body"⟩)
    (r := resC2w) rfl rfl

/-- C9: for a builder constructed without a sink, the finalize operation
    (the end method) never throws and leaves the whole state unchanged;
    all derived fields remain queryable on the unchanged state. -/
theorem c9_end_no_sink {o : Options} {r : Responder}
    (ho : o.response = none) (h : init (some o) = .ok r) :
    endMethod r = .ok r := by
  have hr := init_ok_no_sink ho h
  rw [hr]
  simp [endMethod, coreResult_response_none o ho]

def optsC9w : Options := { data := .str "hello", mode := some "text" }

def resC9w : Responder := (init (some optsC9w)).toOption.getD {}

/-- Witness for C9 on a dry builder holding text data. -/
theorem c9_end_no_sink_witness : endMethod resC9w = .ok resC9w :=
  c9_end_no_sink (o := optsC9w) rfl rfl

def optsC7cex : Options := { mode := some "" }

/-- C7 counterexample: the empty string is a mode value outside the fixed
    set {html, js, json, text}, yet construction does not fail — the falsy
    mode falls back to the default "json" (line 38) before validation ever
    sees it. -/
theorem c7_counterexample :
    modes "" = none ∧
    (init (some optsC7cex)).map Responder.mode = .ok (some "json") :=
  ⟨rfl, rfl⟩

/-- C7 (amended): every NON-EMPTY mode value outside {html, js, json,
    text} makes construction fail with a ValidationError whose message
    enumerates exactly the four valid modes (an empty or absent mode
    instead defaults silently to json); each of the four modes passes
    validation. -/
theorem c7_amended_mode_validation {o : Options} {m : String}
    (hm : o.mode = some m) (hne : m ≠ "") (hunk : modes m = none) :
    init (some o) = .error (.validationError modeValidateMsg) ∧
    modeValidateMsg = "\"html\", \"js\", \"json\", \"text\"" ∧
    modeValidate "html" = none ∧ modeValidate "js" = none ∧
    modeValidate "json" = none ∧ modeValidate "text" = none := by
  have hmv : modeVal o = m := by
    simp [modeVal, hm, hne]
  have hval : modeValidate (modeVal o) = some modeValidateMsg := by
    rw [hmv]
    simp [modeValidate, hunk]
  exact ⟨init_err_of_bad_mode hval, rfl, rfl, rfl, rfl, rfl⟩

/-- Witness for the amended C7 at the unknown mode "xml". -/
theorem c7_amended_mode_validation_witness :
    init (some { mode := some "xml" }) = .error (.validationError modeValidateMsg) ∧
    modeValidateMsg = "\"html\", \"js\", \"json\", \"text\"" ∧
    modeValidate "html" = none ∧ modeValidate "js" = none ∧
    modeValidate "json" = none ∧ modeValidate "text" = none :=
  c7_amended_mode_validation (o := { mode := some "xml" }) (m := "xml")
    rfl (by decide) rfl

def optsC8cex : Options := { data := .str "ok" }

/-- C8 counterexample: with no sink attached, a setHeader call is not
    always a no-op — the argument assertions (line 90) run before the sink
    check (line 93), so an object value raises an ArgumentError instead of
    doing nothing (and, with a sink, instead of removing the header). -/
theorem c8_counterexample :
    (init (some optsC8cex)).bind (fun r => setHeaderM r "X-Test" .objNil) =
      .error (.argumentError 2 "string") := rfl

/-- C8 (amended): for a non-empty header name and a value in the asserted
    domain (undefined, null, boolean, number or string): with a sink, a
    value that is undefined, null, false or the empty string removes the
    header, and any other input value sets it to its string form; with no
    sink the call does nothing.  A value outside that domain (e.g. an
    object) raises an ArgumentError before the sink check, even when no
    sink is attached. -/
theorem c8_set_header {r : Responder} {n : String} {v : JSVal} (hn : n ≠ "") :
    (∀ s, r.response = some (some s) →
      ((v = .undefined ∨ v = .null ∨ v = .bool false ∨ v = .str "") →
        setHeaderM r n v =
          .ok { r with response := some (some (sinkRemoveHeader s n)) }) ∧
      (isInputValJS v = true →
        setHeaderM r n v =
          .ok { r with response := some (some (sinkSetHeader s n (jsToString v))) })) ∧
    (sinkOf r = none → (isVoidJS v || isFalseJS v || isInputJS v) = true →
      setHeaderM r n v = .ok r) ∧
    ((isVoidJS v || isFalseJS v || isInputJS v) = false →
      setHeaderM r n v = .error (.argumentError 2 "string")) := by
  have hn' : (n == "") = false := by simp [hn]
  refine ⟨?_, ?_, ?_⟩
  · intro s hs
    constructor
    · intro hv
      rcases hv with h | h | h | h <;> subst h <;>
        simp [setHeaderM, hn', hs, isVoidJS, isFalseJS, isInputJS, isInputValJS]
    · intro hv
      cases v with
      | bool b =>
        simp only [isInputValJS] at hv
        subst hv
        simp [setHeaderM, hn', hs, isVoidJS, isFalseJS, isInputJS, isInputValJS]
      | num k =>
        simp [setHeaderM, hn', hs, isVoidJS, isFalseJS, isInputJS, isInputValJS]
      | str s' =>
        simp only [isInputValJS, Bool.not_eq_true'] at hv
        simp [setHeaderM, hn', hs, isVoidJS, isFalseJS, isInputJS, isInputValJS, hv]
      | undefined => simp [isInputValJS] at hv
      | null => simp [isInputValJS] at hv
      | objNil => simp [isInputValJS] at hv
      | objCons k' v' rest => simp [isInputValJS] at hv
  · intro h0 hassert
    rcases hr : r.response with _ | (_ | s')
    · simp [setHeaderM, hn', hassert, hr]
    · simp [setHeaderM, hn', hassert, hr]
    · exfalso
      simp [sinkOf, hr] at h0
  · intro hassert
    simp [setHeaderM, hn', hassert]

def rC8w : Responder := { response := some (some {}) }

/-- Witness for the amended C8: on a responder holding a fresh sink, a
    false value removes the header and a string value sets it. -/
theorem c8_set_header_witness :
    setHeaderM rC8w "X-Powered-By" (.bool false) =
      .ok { rC8w with response := some (some (sinkRemoveHeader {} "X-Powered-By")) } ∧
    setHeaderM rC8w "X-Powered-By" (.str "xp") =
      .ok { rC8w with response := some (some (sinkSetHeader {} "X-Powered-By" "xp")) } :=
  ⟨((c8_set_header (r := rC8w) (n := "X-Powered-By") (v := .bool false)
      (by decide)).1 {} rfl).1 (Or.inr (Or.inr (Or.inl rfl))),
   ((c8_set_header (r := rC8w) (n := "X-Powered-By") (v := .str "xp")
      (by decide)).1 {} rfl).2 rfl⟩

theorem setStatusCodeProp_body (r : Responder) (v : Int) :
    (setStatusCodeProp r v).body = r.body := by
  unfold setStatusCodeProp
  split <;> rfl

/-- C5: each derived field of the builder (data, body, bytes, error, mode,
    response) has write-once setter semantics: once the field holds a
    defined value, a further assignment leaves that value in place (for
    mode, every value that can pass validation is non-empty). -/
theorem c5_write_once (r : Responder) :
    (∀ v, isDefinedJS r.data = true → (setDataProp r v).data = r.data) ∧
    (∀ v b, r.body = some b → (setBodyProp r v).body = some b) ∧
    (∀ v x, r.bytes = some x → (setBytesProp r v).bytes = some x) ∧
    (∀ v x, r.error = some x → (setErrorProp r v).error = some x) ∧
    (∀ v m r2, r.mode = some m → m ≠ "" → setModeProp r v = .ok r2 →
      r2.mode = some m) ∧
    (∀ v x, r.response = some x → (setResponseProp r v).response = some x) := by
  refine ⟨?_, ?_, ?_, ?_, ?_, ?_⟩
  · intro v h
    simp [setDataProp, h]
  · intro v b h
    unfold setBodyProp
    simp only [h]
    split
    · rw [setStatusCodeProp_body]
      exact h
    · exact h
  · intro v x h
    simp [setBytesProp, h]
  · intro v x h
    simp [setErrorProp, h]
  · intro v m r2 h hne h2
    unfold setModeProp at h2
    cases hmv : modeValidate v with
    | some msg => rw [hmv] at h2; exact absurd h2 (by simp)
    | none =>
      rw [hmv] at h2
      injection h2 with h2
      rw [← h2]
      simp [h, hne]
  · intro v x h
    simp [setResponseProp, h]

def rC5w : Responder :=
  { options := some {}, data := .str "payload", error := some none,
    mode := some "json", response := some none, body := some "\"payload\"",
    bytes := some 9, statusCode_ := some 200, statusMessage_ := some "OK" }

/-- Witness for C5 on a fully-derived dry responder: each second
    assignment leaves the first value in place. -/
theorem c5_write_once_witness :
    (setDataProp rC5w (.str "second")).data = rC5w.data ∧
    (setBodyProp rC5w "second").body = some "\"payload\"" ∧
    (setBytesProp rC5w 6).bytes = some 9 ∧
    (setErrorProp rC5w (some ⟨500, "boom"⟩)).error = some none ∧
    rC5w.mode = some "json" ∧
    (setResponseProp rC5w (some {})).response = some none :=
  ⟨(c5_write_once rC5w).1 (.str "second") rfl,
   (c5_write_once rC5w).2.1 "second" "\"payload\"" rfl,
   (c5_write_once rC5w).2.2.1 6 9 rfl,
   (c5_write_once rC5w).2.2.2.1 (some ⟨500, "boom"⟩) none rfl,
   (c5_write_once rC5w).2.2.2.2.1 "text" "json" rC5w rfl (by decide) rfl,
   (c5_write_once rC5w).2.2.2.2.2 (some {}) none rfl⟩

/-- C3: with a sink attached: if the resolved status is 200 and the
    serialized body is the empty string, the status on the sink becomes
    204 and the terminal write sends no body bytes; for any other resolved
    status or a non-empty body no such downgrade occurs. -/
theorem c3_empty_body_204 {o : Options} {s0 : Sink} {r : Responder}
    (ho : o.response = some s0) (h : init (some o) = .ok r) :
    ((deriveStatusCode o.error o.response = 200 ∧ deriveBody o = "") →
      (sinkOf r).map Sink.statusCode = some 204 ∧
      (endMethod r).map (fun r2 => (sinkOf r2).map Sink.written) =
        .ok (some (some "")) ∧
      ("" : String).utf8ByteSize = 0) ∧
    (¬(deriveStatusCode o.error o.response = 200 ∧ deriveBody o = "") →
      (sinkOf r).map Sink.statusCode =
        some (deriveStatusCode o.error o.response)) := by
  obtain ⟨hsame, s, hresp, hpend, hcl⟩ := init_ok_sink ho h
  have hsc : s.statusCode =
      (if deriveStatusCode o.error o.response == 200 && deriveBody o == ""
       then 204 else deriveStatusCode o.error o.response) := by
    have hg := hsame.scGet
    rw [coreResult_statusCodeGet] at hg
    simp only [Responder.statusCodeGet, hresp, Option.some.injEq] at hg
    exact hg
  constructor
  · rintro ⟨h200, hbe⟩
    refine ⟨?_, ?_, rfl⟩
    · simp [sinkOf, hresp, hsc, h200, hbe]
    · rw [hbe] at hpend
      simp [endMethod, hresp, sinkOf, hpend, Except.map]
  · intro hno
    have hcond : (deriveStatusCode o.error o.response == 200 &&
        deriveBody o == "") = false := by
      by_cases h1 : deriveStatusCode o.error o.response = 200
      · by_cases h2 : deriveBody o = ""
        · exact absurd ⟨h1, h2⟩ hno
        · simp [h2]
      · simp [h1]
    simp [sinkOf, hresp, hsc, hcond]

def optsC3w : Options := { response := some {} }

def resC3w : Responder := (init (some optsC3w)).toOption.getD {}

/-- Witness for C3: a sink at Node's default status 200 with no payload
    ends up at 204, and the terminal write sends the empty body. -/
theorem c3_empty_body_204_witness :
    (sinkOf resC3w).map Sink.statusCode = some 204 ∧
    (endMethod resC3w).map (fun r2 => (sinkOf r2).map Sink.written) =
      .ok (some (some "")) ∧
    ("" : String).utf8ByteSize = 0 :=
  (c3_empty_body_204 (o := optsC3w) rfl rfl).1 ⟨rfl, rfl⟩

/-- C4: with a sink attached, the Content-Length header finally present on
    the sink is exactly the decimal UTF-8 byte length of the serialized
    body (not its character count); it is applied after the mode template
    headers and after every caller-supplied header, so a caller-supplied
    Content-Length can never override it. -/
theorem c4_content_length {o : Options} {s0 : Sink} {r : Responder}
    (ho : o.response = some s0) (h : init (some o) = .ok r) :
    r.body = some (deriveBody o) ∧
    r.bytes = some (deriveBody o).utf8ByteSize ∧
    (sinkOf r).map (fun s => sinkGetHeader s "Content-Length") =
      some (some (natToString (deriveBody o).utf8ByteSize)) := by
  obtain ⟨hsame, s, hresp, hpend, hcl⟩ := init_ok_sink ho h
  refine ⟨?_, ?_, ?_⟩
  · rw [hsame.bodyEq, coreResult_body]
  · rw [hsame.bytesEq, coreResult_bytes]
  · simp [sinkOf, hresp, hcl]

def optsC4w : Options :=
  { data := .str "héllo", mode := some "text", response := some {},
    headers := [("Content-Length", .str "999"), ("X-Custom", .str "1")] }

def resC4w : Responder := (init (some optsC4w)).toOption.getD {}

/-- Witness for C4: a five-character, six-byte body with a caller-supplied
    Content-Length of 999; the header that survives is "6" — the byte
    count, not the character count and not the caller's value. -/
theorem c4_content_length_witness :
    (resC4w.body = some (deriveBody optsC4w) ∧
     resC4w.bytes = some (deriveBody optsC4w).utf8ByteSize ∧
     (sinkOf resC4w).map (fun s => sinkGetHeader s "Content-Length") =
       some (some (natToString (deriveBody optsC4w).utf8ByteSize))) ∧
    resC4w.bytes = some 6 ∧
    resC4w.body.map String.length = some 5 ∧
    natToString (deriveBody optsC4w).utf8ByteSize = "6" :=
  ⟨c4_content_length (o := optsC4w) rfl rfl, rfl, rfl, rfl⟩
